import Mathlib

/-!
Verification of the numeric core of the `stronger-start-calc` repository.

We give a shallow embedding over exact rationals (`ℚ`) of:
  * `stronger_start/household.py`:
      `calculate_net_income_changes` and `calculate_baseline_reform_comparison`;
  * the weighted-decile aggregation core of
    `stronger_start/dynamic_charts/microsim.py` (`calculate_decile_impacts`,
    lines 48-131), taken as a function of the household arrays the external
    microsimulation engine provides.

Python decimal literals (`0.15`) are exact rationals, Python `round` with
`ndigits` is modelled as decimal round-half-to-even on `ℚ`, and numpy
boolean-mask sums are modelled as `List.filter` followed by summation.
-/

namespace StrongerStart

/-- Python `range(start, stop, step)` for the positive-step case used by the
source (`range(min_income, max_income + 1, step)`): the arithmetic progression
`start, start+step, ...` strictly below `stop`.  A non-positive step yields the
empty list (the source never passes one). -/
def pyRange (start stop step : ℤ) : List ℤ :=
  if step ≤ 0 then []
  else (List.range ((stop - start + step - 1) / step).toNat).map
    (fun i : ℕ => start + step * (i : ℤ))

/-- Loop body of `calculate_net_income_changes` (household.py lines 48-66),
generalized to a rational income so that breakpoint values can be stated.
Constants as in lines 40-46: `max_refundable_per_child = 1700`,
`phase_in_rate = 0.15`, `baseline_threshold = 2500`. -/
def netIncomeChangeQ (num_children : ℤ) (income : ℚ) : ℚ :=
  let max_refundable_per_child : ℚ := 1700
  let phase_in_rate : ℚ := 0.15
  let baseline_threshold : ℚ := 2500
  let max_benefit : ℚ := baseline_threshold * phase_in_rate
  let reform_reaches_max : ℚ := max_refundable_per_child * num_children / phase_in_rate
  let baseline_reaches_max : ℚ := reform_reaches_max + baseline_threshold
  if income = 0 then 0
  else if income ≤ baseline_threshold then income * phase_in_rate
  else if income ≤ reform_reaches_max then max_benefit
  else if income ≤ baseline_reaches_max then
    max_benefit - (income - reform_reaches_max) * phase_in_rate
  else 0

/-- The loop body at an integer income from the generated series. -/
def netIncomeChange (num_children income : ℤ) : ℚ :=
  netIncomeChangeQ num_children (income : ℚ)

/-- `calculate_net_income_changes` (household.py lines 4-70): the income series
`range(min_income, max_income + 1, step)` paired with the per-income benefit
changes.  `filing_status` is accepted and, as in the source, never used. -/
def calculate_net_income_changes (filing_status : String) (num_children : ℤ)
    (min_income max_income step : ℤ) : List ℤ × List ℚ :=
  let employment_income_values := pyRange min_income (max_income + 1) step
  let _ := filing_status
  (employment_income_values,
    employment_income_values.map (netIncomeChange num_children))

/-- Baseline credit at one income (household.py lines 107-112):
`0` when `income <= 2500`, else `min((income - 2500) * 0.15, 1700)`. -/
def baseline_credit (income : ℤ) : ℚ :=
  if (income : ℚ) ≤ 2500 then 0
  else min (((income : ℚ) - 2500) * 0.15) 1700

/-- Reform credit at one income (household.py line 115):
`min(income * 0.15, 1700)`. -/
def reform_credit (income : ℤ) : ℚ :=
  min ((income : ℚ) * 0.15) 1700

/-- `calculate_baseline_reform_comparison` (household.py lines 73-120). -/
def calculate_baseline_reform_comparison (min_income max_income step : ℤ) :
    List ℤ × List ℚ × List ℚ :=
  let employment_income_values := pyRange min_income (max_income + 1) step
  (employment_income_values,
    employment_income_values.map baseline_credit,
    employment_income_values.map reform_credit)

/-- The five-branch piecewise rule exactly as the specification words it
(spec.md section 4.1, "Evaluation rule, for income x"), with
`rate = 0.15`, `threshold = 2500`, `max_gap = 375`,
`reform_cap_income = (1700 * n) / rate`,
`baseline_cap_income = reform_cap_income + 2500`.  Stated for comparison with
the source-derived `netIncomeChange`. -/
def specPiecewiseRule (num_children income : ℤ) : ℚ :=
  let rate : ℚ := 0.15
  let threshold : ℚ := 2500
  let max_gap : ℚ := 375
  let reform_cap_income : ℚ := 1700 * num_children / rate
  let baseline_cap_income : ℚ := reform_cap_income + 2500
  let x : ℚ := income
  if x = 0 then 0
  else if 0 < x ∧ x ≤ threshold then x * rate
  else if threshold < x ∧ x ≤ reform_cap_income then max_gap
  else if reform_cap_income < x ∧ x ≤ baseline_cap_income then
    max_gap - (x - reform_cap_income) * rate
  else 0

/-- Income at which the reform's phase-in reaches its maximum
(household.py line 45): `(1700 * num_children) / 0.15`. -/
def reform_reaches_max (num_children : ℤ) : ℚ :=
  1700 * num_children / 0.15

/-- Income at which the baseline catches up to the reform
(household.py line 46): `reform_reaches_max + 2500`. -/
def baseline_reaches_max (num_children : ℤ) : ℚ :=
  reform_reaches_max num_children + 2500

/-- Phase-in branch expression of the benefit curve
(household.py line 56): `income * phase_in_rate`. -/
def phase_in_branch (income : ℚ) : ℚ :=
  income * 0.15

/-- Plateau branch expression of the benefit curve
(household.py lines 43 and 59): `max_benefit = 2500 * 0.15`. -/
def plateau_branch : ℚ :=
  2500 * 0.15

/-- Phase-out branch expression of the benefit curve (household.py line 63):
`max_benefit - (income - reform_reaches_max) * phase_in_rate`. -/
def phase_out_branch (num_children : ℤ) (income : ℚ) : ℚ :=
  2500 * 0.15 - (income - reform_reaches_max num_children) * 0.15

/-! ### Weighted aggregator (`dynamic_charts/microsim.py`, lines 48-131)

The external microsimulation engine supplies four equal-length arrays:
baseline household net income, reform household net income, household income
decile, and household weight.  We embed them as a list of records, one per
simulated household. -/

/-- One simulated household as consumed by `calculate_decile_impacts`:
the entries at one common index of the arrays `baseline_income_hh`,
`reform_income_hh`, `household_income_decile_hh`, `household_weights_hh`. -/
structure HouseholdRecord where
  baseline_income : ℚ
  reform_income : ℚ
  decile : ℤ
  weight : ℚ
  deriving DecidableEq

/-- `income_change_hh = reform_income_hh - baseline_income_hh`
(microsim.py line 45). -/
def income_change (u : HouseholdRecord) : ℚ :=
  u.reform_income - u.baseline_income

/-- `pct_change_hh = np.where(baseline > 0, change / baseline * 100, 0)`
(microsim.py lines 65-69). -/
def pct_change_hh (u : HouseholdRecord) : ℚ :=
  if 0 < u.baseline_income then income_change u / u.baseline_income * 100 else 0

/-- Mask `gain_more_5_hh = pct_change_hh > 5` (microsim.py line 72). -/
def gain_more_5_hh (u : HouseholdRecord) : Bool :=
  decide (5 < pct_change_hh u)

/-- Mask `gain_less_5_hh = (pct_change_hh > 0) & (pct_change_hh <= 5)`
(microsim.py line 73). -/
def gain_less_5_hh (u : HouseholdRecord) : Bool :=
  decide (0 < pct_change_hh u ∧ pct_change_hh u ≤ 5)

/-- Mask `no_change_hh = income_change_hh == 0` (microsim.py line 74). -/
def no_change_hh (u : HouseholdRecord) : Bool :=
  decide (income_change u = 0)

/-- Mask `loss_less_5_hh = (pct_change_hh < 0) & (pct_change_hh >= -5)`
(microsim.py line 75). -/
def loss_less_5_hh (u : HouseholdRecord) : Bool :=
  decide (pct_change_hh u < 0 ∧ -5 ≤ pct_change_hh u)

/-- Mask `loss_more_5_hh = pct_change_hh < -5` (microsim.py line 76). -/
def loss_more_5_hh (u : HouseholdRecord) : Bool :=
  decide (pct_change_hh u < -5)

/-- Python `round` to the nearest integer with ties to even (banker's
rounding), on an exact rational. -/
def roundHalfEven (q : ℚ) : ℤ :=
  if q - ⌊q⌋ < 1 / 2 then ⌊q⌋
  else if 1 / 2 < q - ⌊q⌋ then ⌊q⌋ + 1
  else if ⌊q⌋ % 2 = 0 then ⌊q⌋ else ⌊q⌋ + 1

/-- Python `round(x, 1)`: one decimal place, ties to even. -/
def pyRound1 (q : ℚ) : ℚ :=
  (roundHalfEven (10 * q) : ℚ) / 10

/-- Python `round(x, 0)`: nearest integer, ties to even. -/
def pyRound0 (q : ℚ) : ℚ :=
  (roundHalfEven q : ℚ)

/-- `household_weights_hh[in_decile].sum()` for `in_decile =
(household_income_decile_hh == decile)` (microsim.py lines 50-51, 92-93). -/
def decile_weight (units : List HouseholdRecord) (d : ℤ) : ℚ :=
  ((units.filter (fun u => decide (u.decile = d))).map (fun u => u.weight)).sum

/-- `outcome_weights[in_decile & mask].sum()` (microsim.py lines 96-110). -/
def bucket_weight (units : List HouseholdRecord) (d : ℤ)
    (mask : HouseholdRecord → Bool) : ℚ :=
  ((units.filter (fun u => decide (u.decile = d) && mask u)).map
    (fun u => u.weight)).sum

/-- One entry of `avg_impact_by_decile` (microsim.py lines 49-59):
weighted average of `income_change_hh` over the decile when the decile weight
is positive, else `0`. -/
def avg_impact_by_decile (units : List HouseholdRecord) (d : ℤ) : ℚ :=
  let decile_weight_hh := decile_weight units d
  if 0 < decile_weight_hh then
    pyRound0
      ((((units.filter (fun u => decide (u.decile = d))).map
          (fun u => income_change u * u.weight)).sum) / decile_weight_hh)
  else 0

/-- The unrounded percentage `(outcome_weights[in_decile & mask].sum() /
decile_weight) * 100` inside microsim.py lines 96-110. -/
def decile_pct_raw (units : List HouseholdRecord) (d : ℤ)
    (mask : HouseholdRecord → Bool) : ℚ :=
  bucket_weight units d mask / decile_weight units d * 100

/-- One entry of `decile_outcomes[...]` (microsim.py lines 95-113): the
rounded percentage when the decile weight is positive, else `0`. -/
def decile_outcome_pct (units : List HouseholdRecord) (d : ℤ)
    (mask : HouseholdRecord → Bool) : ℚ :=
  if 0 < decile_weight units d then pyRound1 (decile_pct_raw units d mask)
  else 0

/-- `total_weight = outcome_weights.sum()` (microsim.py line 116). -/
def total_weight (units : List HouseholdRecord) : ℚ :=
  (units.map (fun u => u.weight)).sum

/-- `outcome_weights[mask].sum()` over the whole population
(microsim.py lines 118-130). -/
def mask_weight (units : List HouseholdRecord)
    (mask : HouseholdRecord → Bool) : ℚ :=
  ((units.filter mask).map (fun u => u.weight)).sum

/-- The unrounded population percentage
`(outcome_weights[mask].sum() / total_weight) * 100` (microsim.py 118-130). -/
def all_pct_raw (units : List HouseholdRecord)
    (mask : HouseholdRecord → Bool) : ℚ :=
  mask_weight units mask / total_weight units * 100

/-- One entry of `all_outcomes` (microsim.py lines 117-131): the population
percentage, rounded to one decimal; the source has no weight guard here. -/
def all_outcome_pct (units : List HouseholdRecord)
    (mask : HouseholdRecord → Bool) : ℚ :=
  pyRound1 (all_pct_raw units mask)

/-! ### Helper lemmas -/

/-- Every element of a generated income series is at least the lower bound. -/
theorem mem_pyRange_lower {start stop step x : ℤ}
    (h : x ∈ pyRange start stop step) : start ≤ x := by
  unfold pyRange at h
  by_cases hs : step ≤ 0
  · simp [hs] at h
  · rw [if_neg hs] at h
    simp only [List.mem_map, List.mem_range] at h
    obtain ⟨i, _, rfl⟩ := h
    have h0 : (0 : ℤ) ≤ step * (i : ℤ) :=
      mul_nonneg (by omega) (Int.natCast_nonneg i)
    omega

/-- At a non-negative income (and at least one child), the loop body of
`calculate_net_income_changes` computes exactly the five-branch rule the
specification states. -/
theorem netIncomeChange_eq_specPiecewiseRule (n x : ℤ) (hn : 1 ≤ n)
    (hx : 0 ≤ x) : netIncomeChange n x = specPiecewiseRule n x := by
  have hn' : (1 : ℚ) ≤ (n : ℚ) := by exact_mod_cast hn
  simp only [netIncomeChange, netIncomeChangeQ, specPiecewiseRule]
  set R : ℚ := 1700 * (n : ℚ) / 0.15 with hRdef
  have hR : (2500 : ℚ) < R := by
    rw [hRdef, lt_div_iff₀ (by norm_num)]
    nlinarith
  rcases eq_or_lt_of_le hx with h0 | h0
  · have hx0 : ((x : ℤ) : ℚ) = 0 := by exact_mod_cast h0.symm
    simp [hx0]
  · have hx0 : (0 : ℚ) < (x : ℚ) := by exact_mod_cast h0
    by_cases h1 : (x : ℚ) ≤ 2500
    · simp only [if_neg hx0.ne', if_pos h1, if_pos (And.intro hx0 h1)]
    · have h1' := not_le.mp h1
      by_cases h2 : (x : ℚ) ≤ R
      · simp only [if_neg hx0.ne', if_neg h1, if_pos h2,
          if_neg (fun hc : 0 < (x : ℚ) ∧ (x : ℚ) ≤ 2500 => h1 hc.2),
          if_pos (And.intro h1' h2)]
        norm_num
      · have h2' := not_le.mp h2
        by_cases h3 : (x : ℚ) ≤ R + 2500
        · simp only [if_neg hx0.ne', if_neg h1, if_neg h2, if_pos h3,
            if_neg (fun hc : 0 < (x : ℚ) ∧ (x : ℚ) ≤ 2500 => h1 hc.2),
            if_neg (fun hc : 2500 < (x : ℚ) ∧ (x : ℚ) ≤ R => h2 hc.2),
            if_pos (And.intro h2' h3)]
          norm_num
        · simp only [if_neg hx0.ne', if_neg h1, if_neg h2, if_neg h3,
            if_neg (fun hc : 0 < (x : ℚ) ∧ (x : ℚ) ≤ 2500 => h1 hc.2),
            if_neg (fun hc : 2500 < (x : ℚ) ∧ (x : ℚ) ≤ R => h2 hc.2),
            if_neg (fun hc : R < (x : ℚ) ∧ (x : ℚ) ≤ R + 2500 => h3 hc.2)]

/-- Pointwise bound: at a non-negative income the benefit change lies in
`[0, 375]`. -/
theorem netIncomeChange_bounds (n x : ℤ) (hx : 0 ≤ x) :
    0 ≤ netIncomeChange n x ∧ netIncomeChange n x ≤ 375 := by
  have hx' : (0 : ℚ) ≤ (x : ℚ) := by exact_mod_cast hx
  simp only [netIncomeChange, netIncomeChangeQ]
  split_ifs with h1 h2 h3 h4
  · norm_num
  · constructor <;> nlinarith
  · norm_num
  · push_neg at h3
    constructor <;> nlinarith
  · norm_num

/-- Pointwise comparison: at a non-negative income the baseline credit never
exceeds the reform credit. -/
theorem baseline_credit_le_reform_credit (x : ℤ) (hx : 0 ≤ x) :
    baseline_credit x ≤ reform_credit x := by
  have hx' : (0 : ℚ) ≤ (x : ℚ) := by exact_mod_cast hx
  by_cases h : (x : ℚ) ≤ 2500
  · simp only [baseline_credit, reform_credit, if_pos h]
    exact le_min (by nlinarith) (by norm_num)
  · simp only [baseline_credit, reform_credit, if_neg h]
    push_neg at h
    exact min_le_min (by nlinarith) le_rfl

/-- C1: for every income in the generated series, `calculate_net_income_changes`
returns the value of the five-branch piecewise rule stated by the
specification (threshold 2500, rate 0.15, max_gap 375,
reform cap `(1700 * n) / 0.15`, baseline cap `reform cap + 2500`). -/
theorem calculate_net_income_changes_piecewise (filing_status : String)
    (num_children min_income max_income step : ℤ)
    (hn : 1 ≤ num_children) (hmin : 0 ≤ min_income) :
    (calculate_net_income_changes filing_status num_children min_income
      max_income step).2
      = (calculate_net_income_changes filing_status num_children min_income
          max_income step).1.map (specPiecewiseRule num_children) := by
  simp only [calculate_net_income_changes]
  refine List.map_congr_left ?_
  intro x hx
  exact netIncomeChange_eq_specPiecewiseRule _ _ hn
    (le_trans hmin (mem_pyRange_lower hx))

/-- Witness for C1 at `num_children = 2`, incomes `0, 100, ..., 300`. -/
theorem calculate_net_income_changes_piecewise_witness :
    (1 ≤ (2 : ℤ)) ∧ (0 ≤ (0 : ℤ)) ∧
    (calculate_net_income_changes "single" 2 0 300 100).2
      = (calculate_net_income_changes "single" 2 0 300 100).1.map
          (specPiecewiseRule 2) :=
  ⟨by norm_num, by norm_num,
    calculate_net_income_changes_piecewise "single" 2 0 300 100
      (by norm_num) (by norm_num)⟩

/-- C2 counterexample: with two children, the code evaluates income `22667`
to `374.95`, not the claimed `375`, because the phase-out starts at
`(1700 * 2) / 0.15 = 22666.66...`, strictly below `22667`. -/
theorem netIncomeChange_22667_ne_375 : netIncomeChange 2 22667 ≠ 375 := by
  norm_num [netIncomeChange, netIncomeChangeQ]

/-- C2 (amended): with two children the code yields change `0` at income `0`,
`375` at `2500`, `374.95` at `22667` (which lies just inside the phase-out
range), `0` at `25167`, and `0` at `30000`. -/
theorem netIncomeChange_scenario_values :
    netIncomeChange 2 0 = 0 ∧ netIncomeChange 2 2500 = 375 ∧
    netIncomeChange 2 22667 = 374.95 ∧ netIncomeChange 2 25167 = 0 ∧
    netIncomeChange 2 30000 = 0 := by
  norm_num [netIncomeChange, netIncomeChangeQ]

/-- C4: for `num_children ∈ {1,2,3}` the benefit curve is continuous at every
breakpoint: adjacent branch expressions agree at `2500`, at the reform cap and
at the baseline cap, and the curve takes those common values there. -/
theorem benefit_curve_continuous_at_breakpoints (n : ℤ)
    (hn : n = 1 ∨ n = 2 ∨ n = 3) :
    phase_in_branch 2500 = plateau_branch ∧
    plateau_branch = phase_out_branch n (reform_reaches_max n) ∧
    phase_out_branch n (baseline_reaches_max n) = 0 ∧
    netIncomeChangeQ n 2500 = plateau_branch ∧
    netIncomeChangeQ n (reform_reaches_max n) = plateau_branch ∧
    netIncomeChangeQ n (baseline_reaches_max n) = 0 := by
  obtain rfl | rfl | rfl := hn <;>
    norm_num [phase_in_branch, plateau_branch, phase_out_branch,
      reform_reaches_max, baseline_reaches_max, netIncomeChangeQ]

/-- Witness for C4 at `num_children = 2`. -/
theorem benefit_curve_continuous_at_breakpoints_witness :
    ((2 : ℤ) = 1 ∨ (2 : ℤ) = 2 ∨ (2 : ℤ) = 3) ∧
    (phase_in_branch 2500 = plateau_branch ∧
      plateau_branch = phase_out_branch 2 (reform_reaches_max 2) ∧
      phase_out_branch 2 (baseline_reaches_max 2) = 0 ∧
      netIncomeChangeQ 2 2500 = plateau_branch ∧
      netIncomeChangeQ 2 (reform_reaches_max 2) = plateau_branch ∧
      netIncomeChangeQ 2 (baseline_reaches_max 2) = 0) :=
  ⟨by norm_num, benefit_curve_continuous_at_breakpoints 2 (by norm_num)⟩

/-- C5: on every series generated from a non-negative lower bound, the
baseline credit is pointwise at most the reform credit. -/
theorem baseline_credits_le_reform_credits (min_income max_income step : ℤ)
    (hmin : 0 ≤ min_income) :
    List.Forall₂ (· ≤ ·)
      (calculate_baseline_reform_comparison min_income max_income step).2.1
      (calculate_baseline_reform_comparison min_income max_income step).2.2 := by
  simp only [calculate_baseline_reform_comparison]
  have key : ∀ l : List ℤ, (∀ x ∈ l, (0 : ℤ) ≤ x) →
      List.Forall₂ (· ≤ ·) (l.map baseline_credit) (l.map reform_credit) := by
    intro l
    induction l with
    | nil => intro _; simp
    | cons a l ih =>
      intro hl
      simp only [List.map_cons]
      exact List.Forall₂.cons
        (baseline_credit_le_reform_credit a (hl a (List.mem_cons_self a l)))
        (ih fun x hx => hl x (List.mem_cons_of_mem a hx))
  exact key _ fun x hx => le_trans hmin (mem_pyRange_lower hx)

/-- Witness for C5 on the series `0, 100, 200, 300`. -/
theorem baseline_credits_le_reform_credits_witness :
    (0 ≤ (0 : ℤ)) ∧
    List.Forall₂ (· ≤ ·)
      (calculate_baseline_reform_comparison 0 300 100).2.1
      (calculate_baseline_reform_comparison 0 300 100).2.2 :=
  ⟨by norm_num, baseline_credits_le_reform_credits 0 300 100 (by norm_num)⟩

/-- C8: the `filing_status` argument does not influence
`calculate_net_income_changes`: the outputs for `"single"` and `"joint"` are
identical for every choice of the other arguments. -/
theorem filing_status_noninterference
    (num_children min_income max_income step : ℤ) :
    calculate_net_income_changes "single" num_children min_income max_income
      step
      = calculate_net_income_changes "joint" num_children min_income max_income
          step := rfl

/-- C10: with at least one child, a positive step and a non-negative income
range, every produced net-income change lies in `[0, 375]`. -/
theorem net_income_changes_bounded (filing_status : String)
    (num_children min_income max_income step : ℤ)
    (_hn : 1 ≤ num_children) (_hstep : 0 < step)
    (hmin : 0 ≤ min_income) (_hrange : min_income ≤ max_income) :
    ∀ q ∈ (calculate_net_income_changes filing_status num_children min_income
      max_income step).2, 0 ≤ q ∧ q ≤ 375 := by
  intro q hq
  simp only [calculate_net_income_changes, List.mem_map] at hq
  obtain ⟨x, hx, rfl⟩ := hq
  exact netIncomeChange_bounds _ _ (le_trans hmin (mem_pyRange_lower hx))

/-- Witness for C10 at `num_children = 1`, incomes `0, 100, 200, 300`. -/
theorem net_income_changes_bounded_witness :
    (1 ≤ (1 : ℤ)) ∧ (0 < (100 : ℤ)) ∧ (0 ≤ (0 : ℤ)) ∧ ((0 : ℤ) ≤ 300) ∧
    ∀ q ∈ (calculate_net_income_changes "single" 1 0 300 100).2,
      0 ≤ q ∧ q ≤ 375 :=
  ⟨by norm_num, by norm_num, by norm_num, by norm_num,
    net_income_changes_bounded "single" 1 0 300 100 (by norm_num) (by norm_num)
      (by norm_num) (by norm_num)⟩

end StrongerStart

namespace StrongerStart

theorem roundHalfEven_sub_abs_le (q : ℚ) :
    |(roundHalfEven q : ℚ) - q| ≤ 1 / 2 := by
  have h0 : ((⌊q⌋ : ℤ) : ℚ) ≤ q := Int.floor_le q
  have h1 : q < ⌊q⌋ + 1 := Int.lt_floor_add_one q
  unfold roundHalfEven
  split_ifs with ha hb hc
  · rw [abs_le]; constructor <;> push_cast <;> linarith
  · rw [abs_le]; constructor <;> push_cast <;> linarith
  · push_neg at ha hb
    rw [abs_le]; constructor <;> push_cast <;> linarith
  · push_neg at ha hb
    rw [abs_le]; constructor <;> push_cast <;> linarith

theorem pyRound1_sub_abs_le (q : ℚ) : |pyRound1 q - q| ≤ 1 / 20 := by
  have h := roundHalfEven_sub_abs_le (10 * q)
  rw [abs_le] at h ⊢
  unfold pyRound1
  constructor <;> linarith [h.1, h.2]

theorem mask_indicator_sum (u : HouseholdRecord)
    (h : 0 < u.baseline_income ∨ u.reform_income = u.baseline_income) :
    (if gain_more_5_hh u then u.weight else 0) +
      (if gain_less_5_hh u then u.weight else 0) +
      (if no_change_hh u then u.weight else 0) +
      (if loss_less_5_hh u then u.weight else 0) +
      (if loss_more_5_hh u then u.weight else 0) = u.weight := by
  rcases h with hb | hr
  · have hz : (income_change u = 0) ↔ pct_change_hh u = 0 := by
      simp [pct_change_hh, hb, div_eq_zero_iff, hb.ne']
    rcases lt_trichotomy (pct_change_hh u) 0 with hneg | hzero | hpos
    · rcases le_or_lt (-5) (pct_change_hh u) with hge | hlt
      · norm_num [gain_more_5_hh, gain_less_5_hh, no_change_hh,
          loss_less_5_hh, loss_more_5_hh, hz, hneg, hneg.ne, hge,
          lt_asymm hneg, not_lt.mpr hge, (by linarith : ¬(5 < pct_change_hh u))]
      · norm_num [gain_more_5_hh, gain_less_5_hh, no_change_hh,
          loss_less_5_hh, loss_more_5_hh, hz, hlt, not_le.mpr hlt,
          ne_of_lt (by linarith : pct_change_hh u < 0),
          lt_asymm (by linarith : pct_change_hh u < 0),
          (by linarith : ¬(5 < pct_change_hh u))]
    · norm_num [gain_more_5_hh, gain_less_5_hh, no_change_hh,
        loss_less_5_hh, loss_more_5_hh, hz, hzero]
    · rcases le_or_lt (pct_change_hh u) 5 with hle | hgt
      · norm_num [gain_more_5_hh, gain_less_5_hh, no_change_hh,
          loss_less_5_hh, loss_more_5_hh, hz, hpos, hpos.ne', hle,
          lt_asymm hpos, not_lt.mpr hle,
          (by linarith : ¬(pct_change_hh u < -5))]
      · norm_num [gain_more_5_hh, gain_less_5_hh, no_change_hh,
          loss_less_5_hh, loss_more_5_hh, hz, hgt,
          (by linarith : ¬(pct_change_hh u ≤ 5)),
          ne_of_gt (by linarith : 0 < pct_change_hh u),
          lt_asymm (by linarith : 0 < pct_change_hh u),
          (by linarith : ¬(pct_change_hh u < -5))]
  · have hc : income_change u = 0 := by simp [income_change, hr]
    have hp : pct_change_hh u = 0 := by
      by_cases hb : 0 < u.baseline_income <;> simp [pct_change_hh, hb, hc]
    norm_num [gain_more_5_hh, gain_less_5_hh, no_change_hh,
      loss_less_5_hh, loss_more_5_hh, hc, hp]

theorem ite_add_shift (c : Bool) (a s : ℚ) :
    (if c then a + s else s) = (if c then a else 0) + s := by
  cases c <;> simp

theorem bucket_weights_sum (units : List HouseholdRecord) (d : ℤ)
    (h : ∀ u ∈ units,
      0 < u.baseline_income ∨ u.reform_income = u.baseline_income) :
    bucket_weight units d gain_more_5_hh + bucket_weight units d gain_less_5_hh
      + bucket_weight units d no_change_hh
      + bucket_weight units d loss_less_5_hh
      + bucket_weight units d loss_more_5_hh = decile_weight units d := by
  induction units with
  | nil => simp [bucket_weight, decile_weight]
  | cons u us ih =>
    have hu := h u (List.mem_cons_self u us)
    have ihs := ih fun v hv => h v (List.mem_cons_of_mem u hv)
    by_cases hd : u.decile = d
    · simp only [bucket_weight, decile_weight, List.filter_cons, hd,
        decide_True, Bool.true_and, List.map_cons, List.sum_cons,
        apply_ite (List.map fun u : HouseholdRecord => u.weight), apply_ite List.sum,
        if_true]
      rw [ite_add_shift, ite_add_shift, ite_add_shift, ite_add_shift,
        ite_add_shift]
      have key := mask_indicator_sum u hu
      simp only [bucket_weight, decile_weight] at ihs
      linarith [key, ihs]
    · simpa [bucket_weight, decile_weight, List.filter_cons, hd] using ihs

theorem mask_weights_sum (units : List HouseholdRecord)
    (h : ∀ u ∈ units,
      0 < u.baseline_income ∨ u.reform_income = u.baseline_income) :
    mask_weight units gain_more_5_hh + mask_weight units gain_less_5_hh
      + mask_weight units no_change_hh + mask_weight units loss_less_5_hh
      + mask_weight units loss_more_5_hh = total_weight units := by
  induction units with
  | nil => simp [mask_weight, total_weight]
  | cons u us ih =>
    have hu := h u (List.mem_cons_self u us)
    have ihs := ih fun v hv => h v (List.mem_cons_of_mem u hv)
    simp only [mask_weight, total_weight, List.filter_cons, List.map_cons,
      List.sum_cons, apply_ite (List.map fun u : HouseholdRecord => u.weight),
      apply_ite List.sum]
    rw [ite_add_shift, ite_add_shift, ite_add_shift, ite_add_shift,
      ite_add_shift]
    have key := mask_indicator_sum u hu
    simp only [mask_weight, total_weight] at ihs
    linarith [key, ihs]

/-- C3 (amended): when every unit has positive baseline income or zero change,
the five unrounded OutcomeBucket percentages sum to exactly 100 for every
decile of positive weight and for the population aggregate of positive weight,
and the five rounded percentages sum to within 1/4 of 100. -/
theorem outcome_pcts_sum_to_100 (units : List HouseholdRecord) (d : ℤ)
    (h : ∀ u ∈ units,
      0 < u.baseline_income ∨ u.reform_income = u.baseline_income) :
    (0 < decile_weight units d →
      decile_pct_raw units d gain_more_5_hh
        + decile_pct_raw units d gain_less_5_hh
        + decile_pct_raw units d no_change_hh
        + decile_pct_raw units d loss_less_5_hh
        + decile_pct_raw units d loss_more_5_hh = 100 ∧
      |decile_outcome_pct units d gain_more_5_hh
        + decile_outcome_pct units d gain_less_5_hh
        + decile_outcome_pct units d no_change_hh
        + decile_outcome_pct units d loss_less_5_hh
        + decile_outcome_pct units d loss_more_5_hh - 100| ≤ 1 / 4) ∧
    (0 < total_weight units →
      all_pct_raw units gain_more_5_hh + all_pct_raw units gain_less_5_hh
        + all_pct_raw units no_change_hh + all_pct_raw units loss_less_5_hh
        + all_pct_raw units loss_more_5_hh = 100 ∧
      |all_outcome_pct units gain_more_5_hh
        + all_outcome_pct units gain_less_5_hh
        + all_outcome_pct units no_change_hh
        + all_outcome_pct units loss_less_5_hh
        + all_outcome_pct units loss_more_5_hh - 100| ≤ 1 / 4) := by
  constructor
  · intro hw
    have hsum := bucket_weights_sum units d h
    have hraw : decile_pct_raw units d gain_more_5_hh
        + decile_pct_raw units d gain_less_5_hh
        + decile_pct_raw units d no_change_hh
        + decile_pct_raw units d loss_less_5_hh
        + decile_pct_raw units d loss_more_5_hh = 100 := by
      simp only [decile_pct_raw]
      field_simp
      linarith
    refine ⟨hraw, ?_⟩
    simp only [decile_outcome_pct, if_pos hw]
    have e1 := pyRound1_sub_abs_le (decile_pct_raw units d gain_more_5_hh)
    have e2 := pyRound1_sub_abs_le (decile_pct_raw units d gain_less_5_hh)
    have e3 := pyRound1_sub_abs_le (decile_pct_raw units d no_change_hh)
    have e4 := pyRound1_sub_abs_le (decile_pct_raw units d loss_less_5_hh)
    have e5 := pyRound1_sub_abs_le (decile_pct_raw units d loss_more_5_hh)
    rw [abs_le] at e1 e2 e3 e4 e5 ⊢
    constructor <;>
      linarith [e1.1, e1.2, e2.1, e2.2, e3.1, e3.2, e4.1, e4.2, e5.1, e5.2]
  · intro hw
    have hsum := mask_weights_sum units h
    have hraw : all_pct_raw units gain_more_5_hh
        + all_pct_raw units gain_less_5_hh + all_pct_raw units no_change_hh
        + all_pct_raw units loss_less_5_hh
        + all_pct_raw units loss_more_5_hh = 100 := by
      simp only [all_pct_raw]
      field_simp
      linarith
    refine ⟨hraw, ?_⟩
    simp only [all_outcome_pct]
    have e1 := pyRound1_sub_abs_le (all_pct_raw units gain_more_5_hh)
    have e2 := pyRound1_sub_abs_le (all_pct_raw units gain_less_5_hh)
    have e3 := pyRound1_sub_abs_le (all_pct_raw units no_change_hh)
    have e4 := pyRound1_sub_abs_le (all_pct_raw units loss_less_5_hh)
    have e5 := pyRound1_sub_abs_le (all_pct_raw units loss_more_5_hh)
    rw [abs_le] at e1 e2 e3 e4 e5 ⊢
    constructor <;>
      linarith [e1.1, e1.2, e2.1, e2.2, e3.1, e3.2, e4.1, e4.2, e5.1, e5.2]

/-- C3 counterexample: the ±0.1 claim fails as stated.  First, a decile-1 unit
with baseline 0 and nonzero change is counted in no bucket, so the five
percentages sum to 0.  Second, even with all baselines positive, rounding
alone can push the sum to 99.8, outside the ±0.1 tolerance. -/
theorem outcome_pcts_sum_to_100_counterexample :
    (0 < decile_weight [⟨0, 50, 1, 1⟩] 1 ∧
      ¬(|decile_outcome_pct [⟨0, 50, 1, 1⟩] 1 gain_more_5_hh
          + decile_outcome_pct [⟨0, 50, 1, 1⟩] 1 gain_less_5_hh
          + decile_outcome_pct [⟨0, 50, 1, 1⟩] 1 no_change_hh
          + decile_outcome_pct [⟨0, 50, 1, 1⟩] 1 loss_less_5_hh
          + decile_outcome_pct [⟨0, 50, 1, 1⟩] 1 loss_more_5_hh - 100|
        ≤ 1 / 10)) ∧
    ((∀ u ∈ ([⟨1000, 1100, 1, 2004⟩, ⟨1000, 1010, 1, 2004⟩,
        ⟨1000, 1000, 1, 2004⟩, ⟨1000, 990, 1, 2004⟩, ⟨1000, 890, 1, 1984⟩] :
          List HouseholdRecord), 0 < u.baseline_income) ∧
      0 < decile_weight [⟨1000, 1100, 1, 2004⟩, ⟨1000, 1010, 1, 2004⟩,
        ⟨1000, 1000, 1, 2004⟩, ⟨1000, 990, 1, 2004⟩, ⟨1000, 890, 1, 1984⟩] 1 ∧
      decile_outcome_pct [⟨1000, 1100, 1, 2004⟩, ⟨1000, 1010, 1, 2004⟩,
          ⟨1000, 1000, 1, 2004⟩, ⟨1000, 990, 1, 2004⟩, ⟨1000, 890, 1, 1984⟩] 1
          gain_more_5_hh
        + decile_outcome_pct [⟨1000, 1100, 1, 2004⟩, ⟨1000, 1010, 1, 2004⟩,
          ⟨1000, 1000, 1, 2004⟩, ⟨1000, 990, 1, 2004⟩, ⟨1000, 890, 1, 1984⟩] 1
          gain_less_5_hh
        + decile_outcome_pct [⟨1000, 1100, 1, 2004⟩, ⟨1000, 1010, 1, 2004⟩,
          ⟨1000, 1000, 1, 2004⟩, ⟨1000, 990, 1, 2004⟩, ⟨1000, 890, 1, 1984⟩] 1
          no_change_hh
        + decile_outcome_pct [⟨1000, 1100, 1, 2004⟩, ⟨1000, 1010, 1, 2004⟩,
          ⟨1000, 1000, 1, 2004⟩, ⟨1000, 990, 1, 2004⟩, ⟨1000, 890, 1, 1984⟩] 1
          loss_less_5_hh
        + decile_outcome_pct [⟨1000, 1100, 1, 2004⟩, ⟨1000, 1010, 1, 2004⟩,
          ⟨1000, 1000, 1, 2004⟩, ⟨1000, 990, 1, 2004⟩, ⟨1000, 890, 1, 1984⟩] 1
          loss_more_5_hh = 99.8 ∧
      ¬(|(99.8 : ℚ) - 100| ≤ 1 / 10)) := by
  have hf1 : ⌊(1002 / 5 : ℚ)⌋ = 200 := Int.floor_eq_iff.mpr (by norm_num)
  have hf2 : ⌊(992 / 5 : ℚ)⌋ = 198 := Int.floor_eq_iff.mpr (by norm_num)
  refine ⟨⟨?_, ?_⟩, ?_, ?_, ?_, ?_⟩
  · norm_num [decile_weight, List.filter_cons, List.filter_nil]
  · norm_num [decile_outcome_pct, decile_pct_raw, bucket_weight,
      decile_weight, pyRound1, roundHalfEven, pct_change_hh, income_change,
      gain_more_5_hh, gain_less_5_hh, no_change_hh, loss_less_5_hh,
      loss_more_5_hh, List.filter_cons, List.filter_nil]
  · norm_num
  · norm_num [decile_weight, List.filter_cons, List.filter_nil]
  · norm_num [decile_outcome_pct, decile_pct_raw, bucket_weight,
      decile_weight, pyRound1, roundHalfEven, pct_change_hh, income_change,
      gain_more_5_hh, gain_less_5_hh, no_change_hh, loss_less_5_hh,
      loss_more_5_hh, List.filter_cons, List.filter_nil, hf1, hf2]
  · have habs : |(1 / 5 : ℚ)| = 1 / 5 := abs_of_nonneg (by norm_num)
    norm_num [habs]

/-- Witness for C3 (amended) on a single decile-1 unit with positive
baseline. -/
theorem outcome_pcts_sum_to_100_witness :
    (∀ u ∈ ([⟨1000, 1050, 1, 10⟩] : List HouseholdRecord),
      0 < u.baseline_income ∨ u.reform_income = u.baseline_income) ∧
    0 < decile_weight [⟨1000, 1050, 1, 10⟩] 1 ∧
    (decile_pct_raw [⟨1000, 1050, 1, 10⟩] 1 gain_more_5_hh
        + decile_pct_raw [⟨1000, 1050, 1, 10⟩] 1 gain_less_5_hh
        + decile_pct_raw [⟨1000, 1050, 1, 10⟩] 1 no_change_hh
        + decile_pct_raw [⟨1000, 1050, 1, 10⟩] 1 loss_less_5_hh
        + decile_pct_raw [⟨1000, 1050, 1, 10⟩] 1 loss_more_5_hh = 100 ∧
      |decile_outcome_pct [⟨1000, 1050, 1, 10⟩] 1 gain_more_5_hh
        + decile_outcome_pct [⟨1000, 1050, 1, 10⟩] 1 gain_less_5_hh
        + decile_outcome_pct [⟨1000, 1050, 1, 10⟩] 1 no_change_hh
        + decile_outcome_pct [⟨1000, 1050, 1, 10⟩] 1 loss_less_5_hh
        + decile_outcome_pct [⟨1000, 1050, 1, 10⟩] 1 loss_more_5_hh - 100|
      ≤ 1 / 4) :=
  ⟨by norm_num,
    by norm_num [decile_weight, List.filter_cons, List.filter_nil],
    (outcome_pcts_sum_to_100 [⟨1000, 1050, 1, 10⟩] 1 (by norm_num)).1
      (by norm_num [decile_weight, List.filter_cons, List.filter_nil])⟩

/-- C6: a decile whose total weight is zero yields 0 for its average dollar
impact and 0 for every outcome-bucket percentage; the guarded division makes
this a defined, total case in the embedding. -/
theorem empty_decile_yields_zero (units : List HouseholdRecord) (d : ℤ)
    (h : decile_weight units d = 0) :
    avg_impact_by_decile units d = 0 ∧
    decile_outcome_pct units d gain_more_5_hh = 0 ∧
    decile_outcome_pct units d gain_less_5_hh = 0 ∧
    decile_outcome_pct units d no_change_hh = 0 ∧
    decile_outcome_pct units d loss_less_5_hh = 0 ∧
    decile_outcome_pct units d loss_more_5_hh = 0 := by
  have h' : ¬(0 < decile_weight units d) := by rw [h]; exact lt_irrefl 0
  simp [avg_impact_by_decile, decile_outcome_pct, h']

/-- Witness for C6: a unit in decile 2 leaves decile 1 empty. -/
theorem empty_decile_yields_zero_witness :
    decile_weight [⟨1000, 1050, 2, 10⟩] 1 = 0 ∧
    (avg_impact_by_decile [⟨1000, 1050, 2, 10⟩] 1 = 0 ∧
      decile_outcome_pct [⟨1000, 1050, 2, 10⟩] 1 gain_more_5_hh = 0 ∧
      decile_outcome_pct [⟨1000, 1050, 2, 10⟩] 1 gain_less_5_hh = 0 ∧
      decile_outcome_pct [⟨1000, 1050, 2, 10⟩] 1 no_change_hh = 0 ∧
      decile_outcome_pct [⟨1000, 1050, 2, 10⟩] 1 loss_less_5_hh = 0 ∧
      decile_outcome_pct [⟨1000, 1050, 2, 10⟩] 1 loss_more_5_hh = 0) :=
  ⟨by norm_num [decile_weight, List.filter_cons, List.filter_nil],
    empty_decile_yields_zero [⟨1000, 1050, 2, 10⟩] 1
      (by norm_num [decile_weight, List.filter_cons, List.filter_nil])⟩

/-- C7: a single decile-1 unit with baseline 1000, reform 1050, weight 10 has
percent change exactly 5, falls in the inclusive gain-at-most-5 bucket and
not the gain-more-than-5 bucket, and makes up 100 percent of that bucket for
decile 1. -/
theorem single_unit_boundary_gain :
    pct_change_hh ⟨1000, 1050, 1, 10⟩ = 5 ∧
    gain_less_5_hh ⟨1000, 1050, 1, 10⟩ = true ∧
    gain_more_5_hh ⟨1000, 1050, 1, 10⟩ = false ∧
    decile_outcome_pct [⟨1000, 1050, 1, 10⟩] 1 gain_less_5_hh = 100 := by
  have hf : ⌊(1000 : ℚ)⌋ = 1000 := Int.floor_eq_iff.mpr (by norm_num)
  norm_num [pct_change_hh, income_change, gain_less_5_hh, gain_more_5_hh,
    decile_outcome_pct, decile_pct_raw, bucket_weight, decile_weight,
    pyRound1, roundHalfEven, List.filter_cons, List.filter_nil, hf]

/-- C9: a unit with non-positive baseline income and nonzero change has its
percent change forced to 0 and falls in none of the five outcome buckets, so
it is excluded from every bucket percentage. -/
theorem nonpositive_baseline_excluded (u : HouseholdRecord)
    (hb : u.baseline_income ≤ 0) (hc : income_change u ≠ 0) :
    pct_change_hh u = 0 ∧
    gain_more_5_hh u = false ∧ gain_less_5_hh u = false ∧
    no_change_hh u = false ∧ loss_less_5_hh u = false ∧
    loss_more_5_hh u = false := by
  have hp : pct_change_hh u = 0 := by simp [pct_change_hh, not_lt.mpr hb]
  norm_num [gain_more_5_hh, gain_less_5_hh, no_change_hh, loss_less_5_hh,
    loss_more_5_hh, hp, hc]

/-- Witness for C9: baseline 0, reform 50. -/
theorem nonpositive_baseline_excluded_witness :
    (⟨0, 50, 1, 1⟩ : HouseholdRecord).baseline_income ≤ 0 ∧
    income_change ⟨0, 50, 1, 1⟩ ≠ 0 ∧
    (pct_change_hh ⟨0, 50, 1, 1⟩ = 0 ∧
      gain_more_5_hh ⟨0, 50, 1, 1⟩ = false ∧
      gain_less_5_hh ⟨0, 50, 1, 1⟩ = false ∧
      no_change_hh ⟨0, 50, 1, 1⟩ = false ∧
      loss_less_5_hh ⟨0, 50, 1, 1⟩ = false ∧
      loss_more_5_hh ⟨0, 50, 1, 1⟩ = false) :=
  ⟨by norm_num, by norm_num [income_change],
    nonpositive_baseline_excluded ⟨0, 50, 1, 1⟩ (by norm_num)
      (by norm_num [income_change])⟩

end StrongerStart
